import Mathlib

/-!
Shallow embedding of the per-frame character-motion and camera-follow update
of the ecctrl example controller (src/example/Controller/index.tsx), together
with theorems checking the natural-language specification against it.

Numbers are modelled as real numbers (the camera-target computation, which is
purely rational, is additionally modelled over the rationals to keep it
executable).  Nullable handles and the JavaScript value undefined are modelled
with Option.
-/

open Real Filter

/-- The keyboard flags destructured from getKeys() in the useFrame callback:
forward, backward, leftward, rightward, jump, run. -/
structure Keys where
  forward : Bool
  backward : Bool
  leftward : Bool
  rightward : Bool
  jump : Bool
  run : Bool
deriving DecidableEq, Repr

/-- Result type of getMovingDirection.  The TypeScript function is declared to
return number or null, but the final branch chain can fall through, in which
case JavaScript returns undefined; that implicit fall-through value is the
undef constructor. -/
inductive MovingDir where
  | null : MovingDir
  | undef : MovingDir
  | angle : ℝ → MovingDir

noncomputable section

/-- Embedding of getMovingDirection (src/example/Controller/index.tsx lines
10-26): the exact chain of if-return statements, with the implicit
fall-through to undefined kept as MovingDir.undef. -/
def getMovingDirection (forward backward leftward rightward : Bool)
    (pivotRotY : ℝ) : MovingDir :=
  if !forward && !backward && !leftward && !rightward then MovingDir.null
  else if forward && leftward then MovingDir.angle (pivotRotY + π / 4)
  else if forward && rightward then MovingDir.angle (pivotRotY - π / 4)
  else if backward && leftward then MovingDir.angle (pivotRotY - π / 4 + π)
  else if backward && rightward then MovingDir.angle (pivotRotY + π / 4 + π)
  else if backward then MovingDir.angle (pivotRotY + π)
  else if leftward then MovingDir.angle (pivotRotY + π / 2)
  else if rightward then MovingDir.angle (pivotRotY - π / 2)
  else if forward then MovingDir.angle pivotRotY
  else MovingDir.undef

/-- Modelled from the spec (section 4.1 priority table): a total direction
table with first-match priority, returning none when no directional flag is
set.  This definition follows the wording of the spec, to be compared with
the source embedding getMovingDirection. -/
def specDirectionTable (forward backward leftward rightward : Bool)
    (base : ℝ) : Option ℝ :=
  if !forward && !backward && !leftward && !rightward then none
  else if forward && leftward then some (base + π / 4)
  else if forward && rightward then some (base - π / 4)
  else if backward && leftward then some (base - π / 4 + π)
  else if backward && rightward then some (base + π / 4 + π)
  else if backward then some (base + π)
  else if leftward then some (base + π / 2)
  else if rightward then some (base - π / 2)
  else some base

/-- Inclusion of the total spec table into the source result type: none maps
to null, a defined angle to itself; undefined is never produced. -/
def toMovingDir : Option ℝ → MovingDir
  | none => MovingDir.null
  | some a => MovingDir.angle a

/-- Embedding of line 136 of the useFrame callback: the new modelEuler.y is
the previous value when the moving direction is null, otherwise the moving
direction itself; assigning the JavaScript value undefined is modelled as
none. -/
def nextModelEulerY (prev : ℝ) : MovingDir → Option ℝ
  | MovingDir.null => some prev
  | MovingDir.angle a => some a
  | MovingDir.undef => none

end

noncomputable section

/-- A 3-component vector of real numbers. -/
structure Vec3 where
  x : ℝ
  y : ℝ
  z : ℝ

/-- The hardcoded base speed of the useFrame callback (line 139):
const speed = 150. -/
def speed : ℝ := 150

/-- Embedding of line 142: Object.values(keys).filter((key) => key).length,
the number of pressed keys among all six flags (directional flags, jump and
run alike). -/
def nbOfKeysPressed (k : Keys) : ℕ :=
  (([k.forward, k.backward, k.leftward, k.rightward, k.jump, k.run].filter
    (fun b => b))).length

/-- Embedding of lines 145-146: speed times delta when exactly one key (of
all six) is pressed, otherwise the diagonal normalization
sqrt 2 times (speed / 2) times delta. -/
def normalizedSpeed (k : Keys) (delta : ℝ) : ℝ :=
  if nbOfKeysPressed k = 1 then speed * delta
  else Real.sqrt 2 * (speed / 2) * delta

/-- Embedding of line 148: run selects normalizedSpeed times sprintMult,
otherwise the literal constant 1. -/
def runSpeed (k : Keys) (delta sprintMult : ℝ) : ℝ :=
  if k.run then normalizedSpeed k delta * sprintMult else 1

/-- Embedding of lines 150-154: the impulse object written to the rigid body
by setLinvel.  linvelY is the pre-existing vertical linear velocity read at
line 140. -/
def impulse (k : Keys) (delta sprintMult sprintJumpMult jumpVel linvelY : ℝ) :
    Vec3 :=
  ⟨if k.leftward then -runSpeed k delta sprintMult
    else if k.rightward then runSpeed k delta sprintMult else 0,
   if k.jump then (if k.run then sprintJumpMult * jumpVel else jumpVel)
    else linvelY,
   if k.forward then -runSpeed k delta sprintMult
    else if k.backward then runSpeed k delta sprintMult else 0⟩

end

/-- Keys with only the forward flag set. -/
def forwardOnlyKeys : Keys := ⟨true, false, false, false, false, false⟩

/-- Keys with the forward and leftward flags set. -/
def forwardLeftKeys : Keys := ⟨true, false, true, false, false, false⟩

/-- Keys with the forward and backward flags set. -/
def forwardBackKeys : Keys := ⟨true, true, false, false, false, false⟩

/-- Keys with the leftward and rightward flags set. -/
def leftRightKeys : Keys := ⟨false, false, true, true, false, false⟩

/-- C1: on all 16 combinations of the four directional flags,
getMovingDirection agrees with the total first-match priority table of
section 4.1 (in particular it never falls through to undefined), and when no
flag is set the facing angle holds its previous value. -/
theorem getMovingDirection_matches_spec_table :
    ∀ (f b l r : Bool) (base prev : ℝ),
      getMovingDirection f b l r base = toMovingDir (specDirectionTable f b l r base) ∧
      nextModelEulerY prev (getMovingDirection false false false false base) = some prev := by
  intro f b l r base prev
  constructor
  · cases f <;> cases b <;> cases l <;> cases r <;>
      simp [getMovingDirection, specDirectionTable, toMovingDir]
  · simp [getMovingDirection, nextModelEulerY]

/-- C2 (failing input): with only the forward flag pressed, run not pressed,
and delta = 1/60, the z component written to the rigid body is the constant
-1 coming from the non-run branch of runSpeed, not -(speed * delta) = -2.5
as the specification requires. -/
theorem impulse_forwardOnly_z_constant_one :
    (impulse forwardOnlyKeys (1/60) 2 1.2 4 0).z = -1 ∧
    (impulse forwardOnlyKeys (1/60) 2 1.2 4 0).x = 0 ∧
    (-1 : ℝ) ≠ -(speed * (1/60)) := by
  refine ⟨?_, ?_, ?_⟩
  · simp [impulse, runSpeed, forwardOnlyKeys]
  · simp [impulse, runSpeed, forwardOnlyKeys]
  · norm_num [speed]

/-- C4: the vertical impulse component is sprintJumpMult * jumpVel when jump
and run are both set, jumpVel when jump is set and run is not, and the
pre-existing vertical linear velocity when jump is not set. -/
theorem impulse_y_jump_rule (k : Keys)
    (delta sprintMult sprintJumpMult jumpVel linvelY : ℝ) :
    (k.jump = true → k.run = true →
      (impulse k delta sprintMult sprintJumpMult jumpVel linvelY).y =
        sprintJumpMult * jumpVel) ∧
    (k.jump = true → k.run = false →
      (impulse k delta sprintMult sprintJumpMult jumpVel linvelY).y = jumpVel) ∧
    (k.jump = false →
      (impulse k delta sprintMult sprintJumpMult jumpVel linvelY).y = linvelY) := by
  refine ⟨?_, ?_, ?_⟩ <;> intro h <;> simp [impulse, h]
  · intro h2; simp [h2]
  · intro h2; simp [h2]

/-- C4 witness: the jump rule evaluated at concrete inputs. -/
theorem impulse_y_jump_rule_witness :
    ((⟨false, false, false, false, true, true⟩ : Keys).jump = true ∧
     (⟨false, false, false, false, true, true⟩ : Keys).run = true ∧
     (impulse ⟨false, false, false, false, true, true⟩ (1/60) 2 1.2 4 0).y =
       1.2 * 4) := by
  refine ⟨rfl, rfl, ?_⟩
  exact (impulse_y_jump_rule ⟨false, false, false, false, true, true⟩
    (1/60) 2 1.2 4 0).1 rfl rfl

/-- C5 (counterexample): with forward and backward both pressed and run not
pressed, the z component is -1, not 0 — opposite flags do not cancel. -/
theorem impulse_opposite_flags_no_cancel :
    (impulse forwardBackKeys (1/60) 2 1.2 4 0).z = -1 ∧ ((-1 : ℝ) ≠ 0) := by
  constructor
  · simp [impulse, runSpeed, forwardBackKeys]
  · norm_num

/-- C5 (amended): when two opposite directional flags are both true the
impulse component on that axis is not zero but -runSpeed: the first branch
of the conditional expression wins (forward over backward, leftward over
rightward). -/
theorem impulse_opposite_flags_first_wins (k : Keys)
    (delta sprintMult sprintJumpMult jumpVel linvelY : ℝ) :
    (k.forward = true → k.backward = true →
      (impulse k delta sprintMult sprintJumpMult jumpVel linvelY).z =
        -runSpeed k delta sprintMult) ∧
    (k.leftward = true → k.rightward = true →
      (impulse k delta sprintMult sprintJumpMult jumpVel linvelY).x =
        -runSpeed k delta sprintMult) := by
  constructor <;> intro h1 h2 <;> simp [impulse, h1, h2]

/-- C5 amended witness: the first-branch-wins rule evaluated at the
forward-and-backward key state. -/
theorem impulse_opposite_flags_first_wins_witness :
    (forwardBackKeys.forward = true ∧ forwardBackKeys.backward = true ∧
     (impulse forwardBackKeys (1/60) 2 1.2 4 0).z =
       -runSpeed forwardBackKeys (1/60) 2) :=
  ⟨rfl, rfl,
    (impulse_opposite_flags_first_wins forwardBackKeys (1/60) 2 1.2 4 0).1
      rfl rfl⟩

/-- C6 (counterexample): with leftward and rightward both pressed the x
component is -runSpeed = -1, not +runSpeed — leftward, not rightward, wins
the tie-break in the impulse builder. -/
theorem impulse_leftRight_leftward_wins_counterexample :
    (impulse leftRightKeys (1/60) 2 1.2 4 0).x = -1 ∧
    ((-1 : ℝ) ≠ runSpeed leftRightKeys (1/60) 2) := by
  constructor
  · simp [impulse, runSpeed, leftRightKeys]
  · norm_num [runSpeed, leftRightKeys]

/-- C6 (amended): when leftward and rightward are both true, the x component
of the impulse equals -runSpeed: leftward wins the tie-break, because the
conditional expression tests leftward first. -/
theorem impulse_leftRight_leftward_wins (k : Keys)
    (delta sprintMult sprintJumpMult jumpVel linvelY : ℝ)
    (hl : k.leftward = true) (hr : k.rightward = true) :
    (impulse k delta sprintMult sprintJumpMult jumpVel linvelY).x =
      -runSpeed k delta sprintMult := by
  simp [impulse, hl, hr]

/-- C6 amended witness: leftward wins evaluated at the
leftward-and-rightward key state. -/
theorem impulse_leftRight_leftward_wins_witness :
    (leftRightKeys.leftward = true ∧ leftRightKeys.rightward = true ∧
     (impulse leftRightKeys (1/60) 2 1.2 4 0).x =
       -runSpeed leftRightKeys (1/60) 2) :=
  ⟨rfl, rfl, impulse_leftRight_leftward_wins leftRightKeys (1/60) 2 1.2 4 0
    rfl rfl⟩

/-- C9: whenever run is not pressed and at least one directional flag is
pressed, every nonzero horizontal impulse component has magnitude exactly 1,
for every delta, and the two horizontal components are not both zero. -/
theorem impulse_no_run_horizontal_magnitude_one (k : Keys)
    (delta sprintMult sprintJumpMult jumpVel linvelY : ℝ)
    (hrun : k.run = false)
    (hdir : (k.forward || k.backward || k.leftward || k.rightward) = true) :
    ((impulse k delta sprintMult sprintJumpMult jumpVel linvelY).x = 0 ∨
      |(impulse k delta sprintMult sprintJumpMult jumpVel linvelY).x| = 1) ∧
    ((impulse k delta sprintMult sprintJumpMult jumpVel linvelY).z = 0 ∨
      |(impulse k delta sprintMult sprintJumpMult jumpVel linvelY).z| = 1) ∧
    ¬((impulse k delta sprintMult sprintJumpMult jumpVel linvelY).x = 0 ∧
      (impulse k delta sprintMult sprintJumpMult jumpVel linvelY).z = 0) := by
  obtain ⟨f, b, l, r, j, rn⟩ := k
  simp only [Bool.or_eq_true] at hdir
  cases hrun
  cases f <;> cases b <;> cases l <;> cases r <;>
    simp_all [impulse, runSpeed]

/-- C9 witness: with only forward pressed and run not pressed, the z
component has magnitude 1 and the horizontal components are not both zero. -/
theorem impulse_no_run_horizontal_magnitude_one_witness :
    (forwardOnlyKeys.run = false ∧
     (forwardOnlyKeys.forward || forwardOnlyKeys.backward ||
       forwardOnlyKeys.leftward || forwardOnlyKeys.rightward) = true ∧
     (((impulse forwardOnlyKeys (1/60) 2 1.2 4 0).x = 0 ∨
       |(impulse forwardOnlyKeys (1/60) 2 1.2 4 0).x| = 1) ∧
      ((impulse forwardOnlyKeys (1/60) 2 1.2 4 0).z = 0 ∨
       |(impulse forwardOnlyKeys (1/60) 2 1.2 4 0).z| = 1) ∧
      ¬((impulse forwardOnlyKeys (1/60) 2 1.2 4 0).x = 0 ∧
        (impulse forwardOnlyKeys (1/60) 2 1.2 4 0).z = 0))) :=
  ⟨rfl, rfl,
    impulse_no_run_horizontal_magnitude_one forwardOnlyKeys (1/60) 2 1.2 4 0
      rfl rfl⟩

/-- C3 (counterexample): with forward and leftward pressed, run not pressed,
and delta = 1/60, the x and z components are both -1 and the planar impulse
magnitude is sqrt 2 (about 1.414), which is neither the claimed
sqrt 2 * (speed / 2) * (1/60) (about 1.7678) nor speed * (1/60) = 2.5. -/
theorem impulse_diagonal_magnitude_counterexample :
    (impulse forwardLeftKeys (1/60) 2 1.2 4 0).x = -1 ∧
    (impulse forwardLeftKeys (1/60) 2 1.2 4 0).z = -1 ∧
    Real.sqrt ((impulse forwardLeftKeys (1/60) 2 1.2 4 0).x ^ 2 +
      (impulse forwardLeftKeys (1/60) 2 1.2 4 0).z ^ 2) = Real.sqrt 2 ∧
    Real.sqrt 2 ≠ Real.sqrt 2 * (speed / 2) * (1/60) ∧
    Real.sqrt 2 ≠ speed * (1/60) := by
  have hx : (impulse forwardLeftKeys (1/60) 2 1.2 4 0).x = -1 := by
    simp [impulse, runSpeed, forwardLeftKeys]
  have hz : (impulse forwardLeftKeys (1/60) 2 1.2 4 0).z = -1 := by
    simp [impulse, runSpeed, forwardLeftKeys]
  have hs : (0:ℝ) < Real.sqrt 2 := Real.sqrt_pos.mpr (by norm_num)
  refine ⟨hx, hz, ?_, ?_, ?_⟩
  · rw [hx, hz]; norm_num
  · intro h
    have h2 : Real.sqrt 2 * (speed / 2) * (1/60) = Real.sqrt 2 * (5/4) := by
      norm_num [speed]; ring
    rw [h2] at h
    nlinarith
  · intro h
    have h2 := Real.sq_sqrt (show (0:ℝ) ≤ 2 by norm_num)
    rw [h] at h2
    norm_num [speed] at h2

/-- C3 (amended): for exactly one of forward or backward pressed together
with exactly one of leftward or rightward, and run not pressed, the x
component is -1 under leftward and +1 under rightward, the z component is -1
under forward and +1 under backward, both horizontal impulse components have
magnitude 1, and the planar magnitude is sqrt 2, independent of delta and of
the base speed constant. -/
theorem impulse_diagonal_magnitude (k : Keys)
    (delta sprintMult sprintJumpMult jumpVel linvelY : ℝ)
    (hfb : xor k.forward k.backward = true)
    (hlr : xor k.leftward k.rightward = true)
    (hrun : k.run = false) :
    (k.forward = true →
      (impulse k delta sprintMult sprintJumpMult jumpVel linvelY).z = -1) ∧
    (k.backward = true →
      (impulse k delta sprintMult sprintJumpMult jumpVel linvelY).z = 1) ∧
    (k.leftward = true →
      (impulse k delta sprintMult sprintJumpMult jumpVel linvelY).x = -1) ∧
    (k.rightward = true →
      (impulse k delta sprintMult sprintJumpMult jumpVel linvelY).x = 1) ∧
    |(impulse k delta sprintMult sprintJumpMult jumpVel linvelY).x| = 1 ∧
    |(impulse k delta sprintMult sprintJumpMult jumpVel linvelY).z| = 1 ∧
    Real.sqrt ((impulse k delta sprintMult sprintJumpMult jumpVel linvelY).x ^ 2 +
      (impulse k delta sprintMult sprintJumpMult jumpVel linvelY).z ^ 2) =
      Real.sqrt 2 := by
  obtain ⟨f, b, l, r, j, rn⟩ := k
  cases hrun
  cases f <;> cases b <;> cases l <;> cases r <;> simp_all [impulse, runSpeed] <;>
    norm_num

/-- C3 amended witness: the diagonal rule evaluated at the
forward-and-leftward key state with delta = 1/60, where the split is across
a negative x component and a negative z component. -/
theorem impulse_diagonal_magnitude_witness :
    (xor forwardLeftKeys.forward forwardLeftKeys.backward = true ∧
     xor forwardLeftKeys.leftward forwardLeftKeys.rightward = true ∧
     forwardLeftKeys.run = false ∧
     (impulse forwardLeftKeys (1/60) 2 1.2 4 0).z = -1 ∧
     (impulse forwardLeftKeys (1/60) 2 1.2 4 0).x = -1 ∧
     (|(impulse forwardLeftKeys (1/60) 2 1.2 4 0).x| = 1 ∧
      |(impulse forwardLeftKeys (1/60) 2 1.2 4 0).z| = 1 ∧
      Real.sqrt ((impulse forwardLeftKeys (1/60) 2 1.2 4 0).x ^ 2 +
        (impulse forwardLeftKeys (1/60) 2 1.2 4 0).z ^ 2) = Real.sqrt 2)) :=
  ⟨rfl, rfl, rfl,
    (impulse_diagonal_magnitude forwardLeftKeys (1/60) 2 1.2 4 0 rfl rfl
      rfl).1 rfl,
    (impulse_diagonal_magnitude forwardLeftKeys (1/60) 2 1.2 4 0 rfl rfl
      rfl).2.2.1 rfl,
    (impulse_diagonal_magnitude forwardLeftKeys (1/60) 2 1.2 4 0 rfl rfl
      rfl).2.2.2.2⟩

/-- State read from the rigid-body handle inside the frame: only the vertical
linear velocity feeds the impulse computation. -/
structure RBState where
  linvelY : ℝ

/-- The externally observable effects of one invocation of the useFrame
callback: the velocity written by setLinvel (if any), whether the character
model orientation was rotated, whether the camera pivot was moved, and
whether a fault (a thrown TypeError) escaped to the host render loop. -/
structure FrameEffects where
  velocityWrite : Option Vec3
  orientationChanged : Bool
  pivotMoved : Bool
  faulted : Bool

/-- The effects of a frame that performs no update and raises no fault. -/
def noOpEffects : FrameEffects := ⟨none, false, false, false⟩

noncomputable section

/-- Embedding of the control flow of the useFrame callback (lines 122-182)
with respect to the two external handles.  A missing rigid-body handle
(characterRef.current) is caught by the guard at lines 124-126 and the frame
is skipped.  When the rigid body is present, setLinvel is executed at line
157; only afterwards does line 166 dereference characterModelRef.current
without a guard, so a missing model node raises a TypeError after the
velocity write, and the orientation and pivot updates do not happen. -/
def frameStep (rb : Option RBState) (model : Option Unit) (k : Keys)
    (delta sprintMult sprintJumpMult jumpVel : ℝ) : FrameEffects :=
  match rb with
  | none => noOpEffects
  | some rbs =>
    match model with
    | none =>
      ⟨some (impulse k delta sprintMult sprintJumpMult jumpVel rbs.linvelY),
        false, false, true⟩
    | some _ =>
      ⟨some (impulse k delta sprintMult sprintJumpMult jumpVel rbs.linvelY),
        true, true, false⟩

end

/-- C7 (counterexample): with the rigid body present but the character model
node missing, the frame is not a no-op — the velocity write has already
happened — and a fault escapes to the host render loop. -/
theorem frameStep_missing_model_faults :
    (frameStep (some ⟨0⟩) none forwardOnlyKeys (1/60) 2 1.2 4).faulted = true ∧
    (frameStep (some ⟨0⟩) none forwardOnlyKeys (1/60) 2 1.2 4).velocityWrite ≠
      none := by
  constructor
  · rfl
  · simp [frameStep]

/-- C7 (amended): only the rigid-body handle is guarded.  A missing rigid
body skips the frame entirely with no fault; a missing character model node
with the rigid body present leaves the orientation and pivot untouched but
only after the velocity write has occurred, and a fault propagates. -/
theorem frameStep_guard_rule (model : Option Unit) (k : Keys)
    (delta sprintMult sprintJumpMult jumpVel : ℝ) :
    frameStep none model k delta sprintMult sprintJumpMult jumpVel =
      noOpEffects ∧
    (∀ rbs : RBState,
      frameStep (some rbs) none k delta sprintMult sprintJumpMult jumpVel =
        ⟨some (impulse k delta sprintMult sprintJumpMult jumpVel rbs.linvelY),
          false, false, true⟩) := by
  constructor
  · rfl
  · intro rbs; rfl

noncomputable section

/-- Embedding of the interpolation factor at line 179:
1 - Math.exp(-camFollowMult * delta). -/
def camFollowAlpha (camFollowMult delta : ℝ) : ℝ :=
  1 - Real.exp (-camFollowMult * delta)

/-- Embedding of the scene-graph lerp used by pivot.position.lerp: each
component moves toward the target by the fraction alpha of the remaining
difference. -/
def Vec3.lerp (p target : Vec3) (alpha : ℝ) : Vec3 :=
  ⟨p.x + (target.x - p.x) * alpha,
   p.y + (target.y - p.y) * alpha,
   p.z + (target.z - p.z) * alpha⟩

/-- Euclidean distance between two vectors. -/
def Vec3.distTo (a b : Vec3) : ℝ :=
  Real.sqrt ((a.x - b.x) ^ 2 + (a.y - b.y) ^ 2 + (a.z - b.z) ^ 2)

/-- The pivot position across frames when the target point is stationary and
every frame applies the line-179 lerp with the same factor alpha. -/
def pivotSeq (p0 target : Vec3) (alpha : ℝ) : ℕ → Vec3
  | 0 => p0
  | n + 1 => Vec3.lerp (pivotSeq p0 target alpha n) target alpha

end

/-- One lerp step scales the distance to the target by 1 - alpha. -/
theorem Vec3.distTo_lerp (p t : Vec3) (alpha : ℝ) (h : alpha ≤ 1) :
    Vec3.distTo (Vec3.lerp p t alpha) t = (1 - alpha) * Vec3.distTo p t := by
  have h1 : ((Vec3.lerp p t alpha).x - t.x) ^ 2 +
      ((Vec3.lerp p t alpha).y - t.y) ^ 2 +
      ((Vec3.lerp p t alpha).z - t.z) ^ 2 =
      (1 - alpha) ^ 2 *
        ((p.x - t.x) ^ 2 + (p.y - t.y) ^ 2 + (p.z - t.z) ^ 2) := by
    simp only [Vec3.lerp]
    ring
  rw [Vec3.distTo, h1, Real.sqrt_mul (sq_nonneg _),
    Real.sqrt_sq (by linarith : (0:ℝ) ≤ 1 - alpha)]
  rfl

/-- Closed form of the distance to a stationary target after n frames. -/
theorem pivotSeq_distTo_closed (p0 t : Vec3) (alpha : ℝ) (h : alpha ≤ 1) :
    ∀ n : ℕ, Vec3.distTo (pivotSeq p0 t alpha n) t =
      (1 - alpha) ^ n * Vec3.distTo p0 t := by
  intro n
  induction n with
  | zero => simp [pivotSeq]
  | succ n ih =>
    have hstep : pivotSeq p0 t alpha (n + 1) =
        Vec3.lerp (pivotSeq p0 t alpha n) t alpha := rfl
    rw [hstep, Vec3.distTo_lerp _ _ _ h, ih]
    ring

/-- C8: for positive camFollowMult and positive delta the lerp factor
1 - exp(-camFollowMult * delta) lies strictly between 0 and 1, every frame
with a stationary target multiplies the distance from pivot to target by the
constant factor exp(-camFollowMult * delta), and the distance converges to 0
as the number of frames grows. -/
theorem pivot_lerp_exponential_follow (camFollowMult delta : ℝ)
    (hk : 0 < camFollowMult) (hdt : 0 < delta) (p0 target : Vec3) :
    (0 < camFollowAlpha camFollowMult delta ∧
      camFollowAlpha camFollowMult delta < 1) ∧
    (∀ n : ℕ,
      Vec3.distTo
        (pivotSeq p0 target (camFollowAlpha camFollowMult delta) (n + 1))
        target =
      Real.exp (-camFollowMult * delta) *
        Vec3.distTo
          (pivotSeq p0 target (camFollowAlpha camFollowMult delta) n)
          target) ∧
    Tendsto (fun n : ℕ =>
        Vec3.distTo
          (pivotSeq p0 target (camFollowAlpha camFollowMult delta) n) target)
      atTop (nhds 0) := by
  have hprod : 0 < camFollowMult * delta := mul_pos hk hdt
  have hexp1 : Real.exp (-camFollowMult * delta) < 1 := by
    rw [Real.exp_lt_one_iff]
    nlinarith
  have hexp0 : 0 < Real.exp (-camFollowMult * delta) := Real.exp_pos _
  have hone_sub : 1 - camFollowAlpha camFollowMult delta =
      Real.exp (-camFollowMult * delta) := by
    simp [camFollowAlpha]
  have hle1 : camFollowAlpha camFollowMult delta ≤ 1 := by
    simp only [camFollowAlpha]
    linarith
  refine ⟨⟨?_, ?_⟩, ?_, ?_⟩
  · simp only [camFollowAlpha]
    linarith
  · simp only [camFollowAlpha]
    linarith
  · intro n
    have hstep : pivotSeq p0 target (camFollowAlpha camFollowMult delta)
        (n + 1) =
        Vec3.lerp (pivotSeq p0 target (camFollowAlpha camFollowMult delta) n)
          target (camFollowAlpha camFollowMult delta) := rfl
    rw [hstep, Vec3.distTo_lerp _ _ _ hle1, hone_sub]
  · have hfun : (fun n : ℕ =>
        Vec3.distTo
          (pivotSeq p0 target (camFollowAlpha camFollowMult delta) n)
          target) =
        fun n : ℕ => Real.exp (-camFollowMult * delta) ^ n *
          Vec3.distTo p0 target := by
      funext n
      rw [pivotSeq_distTo_closed p0 target _ hle1 n, hone_sub]
    rw [hfun]
    have hlim := (tendsto_pow_atTop_nhds_zero_of_lt_one hexp0.le
      hexp1).mul_const (Vec3.distTo p0 target)
    simpa using hlim

/-- C8 witness: the exponential-follow theorem evaluated at
camFollowMult = 11, delta = 1/60, initial pivot (1, 2, 3) and stationary
target (0, 0, 0); the per-frame shrink conclusion is instantiated at
frame 0. -/
theorem pivot_lerp_exponential_follow_witness :
    0 < (11:ℝ) ∧ 0 < (1/60 : ℝ) ∧
    0 < camFollowAlpha 11 (1/60) ∧ camFollowAlpha 11 (1/60) < 1 ∧
    Vec3.distTo (pivotSeq ⟨1, 2, 3⟩ ⟨0, 0, 0⟩ (camFollowAlpha 11 (1/60)) 1)
        ⟨0, 0, 0⟩ =
      Real.exp (-11 * (1/60)) *
        Vec3.distTo (pivotSeq ⟨1, 2, 3⟩ ⟨0, 0, 0⟩ (camFollowAlpha 11 (1/60)) 0)
          ⟨0, 0, 0⟩ ∧
    Tendsto (fun n : ℕ =>
        Vec3.distTo (pivotSeq ⟨1, 2, 3⟩ ⟨0, 0, 0⟩ (camFollowAlpha 11 (1/60)) n)
          ⟨0, 0, 0⟩)
      atTop (nhds 0) :=
  ⟨by norm_num, by norm_num,
    (pivot_lerp_exponential_follow 11 (1/60) (by norm_num) (by norm_num)
      ⟨1, 2, 3⟩ ⟨0, 0, 0⟩).1.1,
    (pivot_lerp_exponential_follow 11 (1/60) (by norm_num) (by norm_num)
      ⟨1, 2, 3⟩ ⟨0, 0, 0⟩).1.2,
    (pivot_lerp_exponential_follow 11 (1/60) (by norm_num) (by norm_num)
      ⟨1, 2, 3⟩ ⟨0, 0, 0⟩).2.1 0,
    (pivot_lerp_exponential_follow 11 (1/60) (by norm_num) (by norm_num)
      ⟨1, 2, 3⟩ ⟨0, 0, 0⟩).2.2⟩

/-- A 3-component vector of rational numbers, used for the purely rational
camera-target computation so that it stays executable. -/
structure Vec3Q where
  x : ℚ
  y : ℚ
  z : ℚ
deriving DecidableEq, Repr

/-- JavaScript numeric a || b on rational values: 0 is falsy, every other
number is truthy (NaN does not arise in this computation). -/
def jsOrNum (a b : ℚ) : ℚ := if a = 0 then b else a

/-- Embedding of lines 174-178: the camera pivot target point is the
character position plus camTargetPos, except that the y offset falls back to
capsuleHalfHeight + capsuleRadius / 2 by JavaScript truthiness of
camTargetPos.y. -/
def pivotPositionSet (currentPos camTargetPos : Vec3Q)
    (capsuleHalfHeight capsuleRadius : ℚ) : Vec3Q :=
  ⟨currentPos.x + camTargetPos.x,
   currentPos.y + jsOrNum camTargetPos.y (capsuleHalfHeight + capsuleRadius / 2),
   currentPos.z + camTargetPos.z⟩

/-- C10: the pivot target's vertical coordinate adds camTargetPos.y exactly
when that configured value is nonzero; whenever camTargetPos.y equals 0 —
including when 0 is configured explicitly — the fallback
capsuleHalfHeight + capsuleRadius / 2 is used, selected by truthiness of the
value rather than by its absence. -/
theorem pivotPositionSet_y_truthiness_fallback
    (currentPos camTargetPos : Vec3Q) (capsuleHalfHeight capsuleRadius : ℚ) :
    (camTargetPos.y ≠ 0 →
      (pivotPositionSet currentPos camTargetPos capsuleHalfHeight
        capsuleRadius).y = currentPos.y + camTargetPos.y) ∧
    (camTargetPos.y = 0 →
      (pivotPositionSet currentPos camTargetPos capsuleHalfHeight
        capsuleRadius).y =
        currentPos.y + (capsuleHalfHeight + capsuleRadius / 2)) := by
  constructor <;> intro h <;> simp [pivotPositionSet, jsOrNum, h]

/-- C10 witness: with camTargetPos.y configured explicitly to 0, character
y = 5, capsuleHalfHeight = 0.35 and capsuleRadius = 0.3, the pivot target
height is 5 + 0.35 + 0.15 = 5.5, the fallback value. -/
theorem pivotPositionSet_y_truthiness_fallback_witness :
    ((⟨0, 0, 0⟩ : Vec3Q).y = 0 ∧
     (pivotPositionSet ⟨0, 5, 0⟩ ⟨0, 0, 0⟩ (35/100) (3/10)).y =
       (5 : ℚ) + (35/100 + (3/10) / 2)) :=
  ⟨rfl,
    (pivotPositionSet_y_truthiness_fallback ⟨0, 5, 0⟩ ⟨0, 0, 0⟩ (35/100)
      (3/10)).2 rfl⟩
